import Mathlib

/-!
Verification of the rspotify OAuth token-lifecycle core against its
specification.  The development shallowly embeds the Rust sources
`src/lib.rs` and `src/auth_code_pkce.rs`:

* `chrono::DateTime<Utc>` values are represented by their `timestamp()`
  value, an `Int` of seconds, because that is the only observation the
  code ever makes of them (`Token::is_expired` compares timestamps);
* `chrono::Duration` is represented by its whole number of seconds
  (`duration_second` serializes it as `num_seconds()`);
* `HashSet<String>` scope sets are represented by a `List String` giving
  the (arbitrary) iteration order used when the set is serialized;
* file I/O is represented by an explicit `FileRead` value describing the
  outcome of opening, reading and JSON-parsing the cache file, and the
  on-disk JSON blob by the structure `CacheBlob`;
* the `RwLock<Option<Token>>` token slot of `AuthCodePkceSpotify` is a
  plain `Option Token` field: the write lock is taken for the whole of
  `auto_reauth`, so its body runs without interference;
* the network exchange `fetch_access_token` is given the server's parsed
  response `Token` as an explicit oracle argument (claims here concern
  the successful path; a transport error simply propagates unchanged).
-/

namespace Rspotify

/-- Character-level model of Rust `Vec::<String>::join(" ")`:
the empty vector yields the empty string, otherwise the words are
interleaved with single spaces. -/
def joinSp : List (List Char) → List Char
  | [] => []
  | [w] => w
  | w :: ws => w ++ ' ' :: joinSp ws

/-- Accumulator worker for `splitWs`.  `acc` holds the characters of the
word currently being read, in reverse order. -/
def splitWsAux : List Char → List Char → List (List Char)
  | [], acc => if acc.isEmpty then [] else [acc.reverse]
  | c :: cs, acc =>
    if c.isWhitespace then
      if acc.isEmpty then splitWsAux cs []
      else acc.reverse :: splitWsAux cs []
    else splitWsAux cs (c :: acc)

/-- Character-level model of Rust `str::split_whitespace`: maximal runs
of non-whitespace characters, empty words skipped. -/
def splitWs (s : List Char) : List (List Char) := splitWsAux s []

/-- Model of `space_separated_scope::serialize` (src/lib.rs 309–315):
the scope set, iterated in its stored order, joined with `" "`. -/
def joinScope (l : List String) : String := String.mk (joinSp (l.map String.data))

/-- Model of `space_separated_scope::deserialize` (src/lib.rs 301–307):
split the stored string on whitespace and collect the words. -/
def splitScope (s : String) : List String := (splitWs s.data).map String.mk

/-- Spotify access token information (src/lib.rs 320–343, `Token`). -/
structure Token where
  access_token : String
  expires_in : Int
  expires_at : Option Int
  refresh_token : Option String
  scope : List String
deriving DecidableEq, Repr

/-- Model of `Token::is_expired` (src/lib.rs 380–383): true when
`expires_at` is absent, or when the current timestamp is strictly
greater than the stored one.  `now` is the value of
`Utc::now().timestamp()`. -/
def Token.is_expired (tok : Token) (now : Int) : Bool :=
  match tok.expires_at with
  | none => true
  | some x => now > x

/-- Modelled from the spec: `Token::can_reauth` is called by
`auto_reauth` (src/auth_code_pkce.rs 83) but its body is not among the
sources; spec §4.1 defines it as "true iff `refresh_token` is
present". -/
def Token.can_reauth (tok : Token) : Bool :=
  tok.refresh_token.isSome

/-- The partially-filled builder state generated by `derive_builder` for
`Token` (src/lib.rs 320): every field starts out unset. -/
structure TokenBuilder where
  access_token : Option String := none
  expires_in : Option Int := none
  expires_at : Option (Option Int) := none
  refresh_token : Option (Option String) := none
  scope : Option (List String) := none
deriving DecidableEq, Repr

/-- `TokenBuilder::build` as generated by `derive_builder` with the
field attributes of src/lib.rs 320–343: `access_token` is required
(missing it is a build error, modelled as `none`); `expires_in`
defaults to `Duration::seconds(0)`; `expires_at` defaults to
`Some(Utc::now())`, i.e. the build-time timestamp `now`;
`refresh_token` defaults to `None`; `scope` defaults to the empty
set. -/
def TokenBuilder.build (b : TokenBuilder) (now : Int) : Option Token :=
  match b.access_token with
  | none => none
  | some a =>
    some { access_token := a
           expires_in := b.expires_in.getD 0
           expires_at := b.expires_at.getD (some now)
           refresh_token := b.refresh_token.getD none
           scope := b.scope.getD [] }

/-- The on-disk JSON serialization of a `Token` produced by
`serde_json::to_string` with the field attributes of src/lib.rs
320–343: `expires_in` as whole seconds (`duration_second`),
`expires_at` as an exactly round-tripping ISO-8601 timestamp, and
`scope` as a single space-separated string. -/
structure CacheBlob where
  access_token : String
  expires_in : Int
  expires_at : Option Int
  refresh_token : Option String
  scope : String
deriving DecidableEq, Repr

/-- Model of `Token::write_cache` (src/lib.rs 369–377): the blob that
`serde_json::to_string(&self)` writes to the (truncated) cache file. -/
def Token.write_cache (tok : Token) : CacheBlob :=
  { access_token := tok.access_token
    expires_in := tok.expires_in
    expires_at := tok.expires_at
    refresh_token := tok.refresh_token
    scope := joinScope tok.scope }

/-- Model of `serde_json::from_str::<Token>` applied to a well-formed
cache blob (the deserialization half of the attributes on src/lib.rs
320–343). -/
def parseCacheBlob (b : CacheBlob) : Token :=
  { access_token := b.access_token
    expires_in := b.expires_in
    expires_at := b.expires_at
    refresh_token := b.refresh_token
    scope := splitScope b.scope }

/-- Outcome of opening, reading and parsing the cache file in
`TokenBuilder::from_cache` (src/lib.rs 348–351): `File::open` can fail,
`read_to_string` can fail, `serde_json::from_str` can fail, or the file
holds a well-formed blob. -/
inductive FileRead where
  | missing
  | unreadable
  | malformed
  | json (blob : CacheBlob)
deriving DecidableEq, Repr

/-- True on every outcome in which no `Token` was obtained. -/
def FileRead.isFailure : FileRead → Bool
  | .json _ => false
  | _ => true

/-- Model of `TokenBuilder::from_cache` (src/lib.rs 347–364): on any
failure fall through to `TokenBuilder::default()`; on success return a
builder with every field populated from the parsed token.  The return
type is `TokenBuilder`, not a result: no error can propagate. -/
def TokenBuilder.from_cache (f : FileRead) : TokenBuilder :=
  match f with
  | .json blob =>
    let tok := parseCacheBlob blob
    { access_token := some tok.access_token
      expires_in := some tok.expires_in
      expires_at := some tok.expires_at
      refresh_token := some tok.refresh_token
      scope := some tok.scope }
  | _ => {}

/-- Client id/secret pair (src/lib.rs 387–393, `Credentials`). -/
structure Credentials where
  id : String
  secret : String
deriving DecidableEq, Repr

/-- OAuth request information (src/lib.rs 414–427, `OAuth`).  The field
is named `scope` in src/lib.rs; src/auth_code_pkce.rs refers to it as
`scopes`. -/
structure OAuth where
  redirect_uri : String
  state : String
  scope : List String
  proxies : Option String := none
deriving DecidableEq, Repr

/- Query / form parameter names referenced as `headers::*` from
src/auth_code_pkce.rs.  Modelled from the spec: the `headers` module
itself is not among the sources; spec §6 and §4.2 give the wire names
(`client_id`, `response_type=code`, `redirect_uri`, `scope`, `state`,
`code`, `grant_type=authorization_code`, `grant_type=refresh_token`,
`refresh_token`, `code_challenge`, `code_challenge_method`). -/
namespace headers

def CLIENT_ID : String := "client_id"

def RESPONSE_TYPE : String := "response_type"

def RESPONSE_CODE : String := "code"

def REDIRECT_URI : String := "redirect_uri"

def SCOPE : String := "scope"

def STATE : String := "state"

def CODE : String := "code"

def GRANT_TYPE : String := "grant_type"

def GRANT_AUTH_CODE : String := "authorization_code"

def GRANT_REFRESH_TOKEN : String := "refresh_token"

def REFRESH_TOKEN : String := "refresh_token"

def CODE_CHALLENGE : String := "code_challenge"

def CODE_CHALLENGE_METHOD : String := "code_challenge_method"

end headers

namespace AuthCodePkce

/-- The immutable configuration of an `AuthCodePkceSpotify` client
(src/auth_code_pkce.rs 31–37): its credentials and OAuth data. -/
structure ClientCfg where
  creds : Credentials
  oauth : OAuth
deriving DecidableEq, Repr

/-- The mutable state of an `AuthCodePkceSpotify` client.  `token`
models the `RwLock<Option<Token>>` slot; `cache` models the contents
of the on-disk cache file; `token_refreshing` is the
`config.token_refreshing` flag read by `auto_reauth`
(src/auth_code_pkce.rs 83).  Modelled from the spec where the source is
silent: `Config` as given in src/lib.rs 229–245 lacks the
`token_refreshing` field, which spec §6 lists as the "token-refreshing
enabled/disabled flag" of the configuration surface. -/
structure ClientState where
  token_refreshing : Bool
  token : Option Token
  cache : Option CacheBlob := none
deriving DecidableEq, Repr

/-- Modelled from the spec: `write_token_cache` (called on
src/auth_code_pkce.rs 91, 116, 135) is not among the sources; spec §3
says the cache is "written after every successful refresh or initial
exchange", i.e. the current token is serialized to the cache file. -/
def write_token_cache (s : ClientState) : ClientState :=
  { s with cache := s.token.map Token.write_cache }

/-- Model of `refetch_token` (src/auth_code_pkce.rs 119–127): POST the
refresh form, then unconditionally overwrite the `refresh_token` field
of the server's response with the refresh token that was sent.  `resp`
is the token parsed from the server's reply by `fetch_access_token`. -/
def refetch_token (resp : Token) (rt : String) : Token :=
  { resp with refresh_token := some rt }

/-- The form body built by `refetch_token` (src/auth_code_pkce.rs
120–122) for the token-endpoint POST. -/
def refetch_token_form (rt : String) : List (String × String) :=
  [(headers.REFRESH_TOKEN, rt),
   (headers.GRANT_TYPE, headers.GRANT_REFRESH_TOKEN)]

/-- Model of the `refresh_token` operation (src/auth_code_pkce.rs
129–136): refetch, store the result wholesale, write the cache. -/
def refresh_token (resp : Token) (rt : String) (s : ClientState) : ClientState :=
  let token := refetch_token resp rt
  write_token_cache { s with token := some token }

/-- Model of `auto_reauth` (src/auth_code_pkce.rs 78–95).  The write
lock is held for the whole body, so the body runs atomically on the
state.  The boolean records whether a refresh exchange with the token
endpoint was performed.  Note the body consults `token_refreshing`,
`can_reauth` and the presence of `refresh_token` only — it never calls
`is_expired`, and never reads the clock. -/
def auto_reauth (resp : Token) (s : ClientState) : ClientState × Bool :=
  if s.token_refreshing && (s.token.map Token.can_reauth).getD false then
    match s.token.bind Token.refresh_token with
    | some re_tok =>
      let fetched := refetch_token resp re_tok
      (write_token_cache { s with token := some fetched }, true)
    | none => (s, false)
  else (s, false)

/-- Model of `get_token` (src/auth_code_pkce.rs 46–53): run
`auto_reauth`, then hand the caller a read view of the token slot. -/
def get_token (resp : Token) (s : ClientState) : ClientState × Option Token :=
  let s' := (auto_reauth resp s).1
  (s', s'.token)

/-- N lock-serialized authenticated requests against one client: the
exclusive write lock taken at the top of `auto_reauth` forces the
concurrent `get_token` calls into some sequential order, so their
combined effect is this fold.  `resps` supplies the server's response
to each refresh exchange that is actually performed; the returned
number counts those exchanges. -/
def run_reauths : List Token → ClientState → ClientState × Nat
  | [], s => (s, 0)
  | r :: rs, s =>
    let (s', b) := auto_reauth r s
    let (s'', n) := run_reauths rs s'
    (s'', (if b then 1 else 0) + n)

/-- The form body built by `request_token` (src/auth_code_pkce.rs
97–111) for exchanging an authorization code. -/
def request_token_form (c : ClientCfg) (code : String) : List (String × String) :=
  [(headers.GRANT_TYPE, headers.GRANT_AUTH_CODE),
   (headers.REDIRECT_URI, c.oauth.redirect_uri),
   (headers.CODE, code),
   (headers.SCOPE, joinScope c.oauth.scope),
   (headers.STATE, c.oauth.state)]

/-- The query parameters of the URL built by `get_authorize_url`
(src/auth_code_pkce.rs 173–193).  The source inserts them into a
`HashMap` and passes it to `Url::parse_with_params`; the list models
that parameter collection.  The two lines inserting
`headers::CODE_CHALLENGE` and `headers::CODE_CHALLENGE_METHOD`
(src/auth_code_pkce.rs 188–189) are commented out in the source, so no
such parameters are produced. -/
def get_authorize_url (c : ClientCfg) : List (String × String) :=
  [(headers.CLIENT_ID, c.creds.id),
   (headers.RESPONSE_TYPE, headers.RESPONSE_CODE),
   (headers.REDIRECT_URI, c.oauth.redirect_uri),
   (headers.SCOPE, joinScope c.oauth.scope),
   (headers.STATE, c.oauth.state)]

end AuthCodePkce

/-- Boolean set-equality of two scope lists: each is contained in the
other.  This is the "scope compared as a set, serialization order
ignored" comparison of the round-trip property. -/
def eqAsSet (a b : List String) : Bool :=
  a.all (fun x => b.contains x) && b.all (fun x => a.contains x)

/-- Boolean guard on a scope list: every word is nonempty and free of
whitespace characters. -/
def okScope (l : List String) : Bool :=
  l.all (fun w => !w.data.isEmpty && w.data.all (fun c => !c.isWhitespace))

theorem splitWsAux_append (w : List Char) (cs acc : List Char)
    (h : w.all (fun c => !c.isWhitespace) = true) :
    splitWsAux (w ++ cs) acc = splitWsAux cs (w.reverse ++ acc) := by
  induction w generalizing acc with
  | nil => simp
  | cons c w ih =>
    simp only [List.all_cons, Bool.and_eq_true, Bool.not_eq_true'] at h
    rw [List.cons_append]
    simp only [splitWsAux, h.1, Bool.false_eq_true, if_false]
    rw [ih _ h.2]
    simp [List.append_assoc]

theorem splitWsAux_space (cs : List Char) (a : Char) (as : List Char) :
    splitWsAux (' ' :: cs) (a :: as) = (a :: as).reverse :: splitWsAux cs [] := by
  have hw : (' ' : Char).isWhitespace = true := by decide
  simp [splitWsAux, hw]

theorem splitWs_joinSp (ls : List (List Char))
    (h : ls.all (fun w => !w.isEmpty && w.all (fun c => !c.isWhitespace)) = true) :
    splitWs (joinSp ls) = ls := by
  induction ls with
  | nil => rfl
  | cons w ws ih =>
    simp only [List.all_cons, Bool.and_eq_true, Bool.not_eq_true'] at h
    obtain ⟨⟨hw1, hw2⟩, hws⟩ := h
    obtain ⟨a, as, rfl⟩ : ∃ a as, w = a :: as := by
      cases w with
      | nil => simp at hw1
      | cons a as => exact ⟨a, as, rfl⟩
    cases ws with
    | nil =>
      have h1 := splitWsAux_append (a :: as) [] [] hw2
      rw [List.append_nil] at h1
      show splitWsAux (joinSp [a :: as]) [] = [a :: as]
      have hj : joinSp [a :: as] = a :: as := rfl
      rw [hj, h1]
      simp [splitWsAux, List.isEmpty_iff]
    | cons x xs =>
      show splitWsAux (joinSp ((a :: as) :: x :: xs)) [] = (a :: as) :: x :: xs
      have hj : joinSp ((a :: as) :: x :: xs) = (a :: as) ++ ' ' :: joinSp (x :: xs) := rfl
      rw [hj, splitWsAux_append _ _ _ hw2, List.append_nil, List.reverse_cons]
      have hrev : ∃ b bs, as.reverse ++ [a] = b :: bs := by
        cases h' : as.reverse ++ [a] with
        | nil => exact absurd h' (by simp)
        | cons b bs => exact ⟨b, bs, rfl⟩
      obtain ⟨b, bs, hb⟩ := hrev
      rw [hb, splitWsAux_space, ← hb]
      simp only [List.reverse_append, List.reverse_cons, List.reverse_nil, List.nil_append,
        List.reverse_reverse, List.cons_append]
      exact congrArg (List.cons (a :: as)) (ih hws)

theorem string_mk_data (s : String) : String.mk s.data = s := rfl

theorem splitScope_joinScope (l : List String) (h : okScope l = true) :
    splitScope (joinScope l) = l := by
  show (splitWs (joinSp (l.map String.data))).map String.mk = l
  rw [splitWs_joinSp (l.map String.data) ?hall]
  case hall =>
    simpa [List.all_map, Function.comp, okScope] using h
  rw [List.map_map]
  have hid : String.mk ∘ String.data = id := funext string_mk_data
  rw [hid, List.map_id]

/-! Concrete values used by the counterexamples and witnesses below. -/

/-- A refreshable token that expires at timestamp 1000: not yet expired
at `now = 500`, expired at `now = 2000`. -/
def tokStored : Token :=
  { access_token := "acc"
    expires_in := 3600
    expires_at := some 1000
    refresh_token := some "rt"
    scope := [] }

/-- A server response to a refresh exchange that omits `refresh_token`. -/
def tokResp : Token :=
  { access_token := "new-acc"
    expires_in := 3600
    expires_at := some 5000
    refresh_token := none
    scope := [] }

/-- A second refresh response, for the second exchange of a pair of
requests. -/
def tokResp2 : Token :=
  { access_token := "new-acc-2"
    expires_in := 3600
    expires_at := some 6000
    refresh_token := none
    scope := [] }

/-- A token whose single scope word contains a space. -/
def tokWsScope : Token :=
  { access_token := "abc"
    expires_in := 3600
    expires_at := some 100
    refresh_token := some "rt"
    scope := ["a b"] }

/-- A token with two ordinary scope words. -/
def tokNice : Token :=
  { access_token := "abc"
    expires_in := 3600
    expires_at := some 100
    refresh_token := some "rt"
    scope := ["user-read", "playlist"] }

/-- The token produced by building `{ access_token := some "abc" }` at
build-time timestamp 50, with every other field defaulted. -/
def tokBuilt : Token :=
  { access_token := "abc"
    expires_in := 0
    expires_at := some 50
    refresh_token := none
    scope := [] }

/-- A well-formed cache blob. -/
def blobDemo : CacheBlob :=
  { access_token := "abc"
    expires_in := 3600
    expires_at := some 100
    refresh_token := some "rt"
    scope := "user-read playlist" }

/-- C1: the claim asserts that with token refreshing enabled and a
stored refreshable (`can_reauth`) but NOT expired token, `auto_reauth`
performs no refresh exchange and leaves the token unchanged.  The code
violates this: `auto_reauth` (src/auth_code_pkce.rs 78–95) never
consults `is_expired`, so at `now = 500` the stored token expiring at
1000 is not expired, yet the exchange is performed and the stored token
is replaced. -/
theorem auto_reauth_refreshes_non_expired_token :
    tokStored.is_expired 500 = false ∧
    tokStored.can_reauth = true ∧
    (AuthCodePkce.auto_reauth tokResp
      { token_refreshing := true, token := some tokStored }).2 = true ∧
    (AuthCodePkce.auto_reauth tokResp
      { token_refreshing := true, token := some tokStored }).1.token ≠ some tokStored := by
  decide

/-- C2: `is_expired` returns true exactly when `expires_at` is absent
or the current timestamp is strictly after the stored one; hence true
for every absent or past `expires_at` and false for every future
one. -/
theorem is_expired_iff_absent_or_past (tok : Token) (now : Int) :
    tok.is_expired now = true ↔
      tok.expires_at = none ∨ ∃ x, tok.expires_at = some x ∧ x < now := by
  cases hx : tok.expires_at with
  | none => simp [Token.is_expired, hx]
  | some x => simp [Token.is_expired, hx]

/-- C3, counterexample: a token built through the builder without an
explicit `expires_at` at build-time timestamp 50 is NOT expired
immediately after construction (checking at the same timestamp 50),
because the defaulted `expires_at = Some(now)` fails the strict
comparison of `is_expired`. -/
theorem builder_default_not_expired_at_construction :
    (TokenBuilder.build { access_token := some "abc" } 50).map
      (fun tok => tok.is_expired 50) = some false := by
  decide

/-- C3, amended: a token built without an explicit `expires_at` has its
expiry defaulted to the build-time instant, so `is_expired` is false at
the construction instant itself and true at every strictly later
instant. -/
theorem builder_default_expiry_stale_strictly_after (b : TokenBuilder) (now t : Int)
    (tok : Token) (hb : b.expires_at = none) (hbuild : b.build now = some tok) :
    tok.is_expired t = decide (now < t) := by
  cases ha : b.access_token with
  | none => simp [TokenBuilder.build, ha] at hbuild
  | some a =>
    simp only [TokenBuilder.build, ha, Option.some.injEq] at hbuild
    subst hbuild
    simp [Token.is_expired, hb]

/-- C3, witness for the amended statement at a concrete input. -/
theorem builder_default_expiry_stale_strictly_after_witness :
    ({ access_token := some "abc" } : TokenBuilder).expires_at = none ∧
    TokenBuilder.build { access_token := some "abc" } 50 = some tokBuilt ∧
    tokBuilt.is_expired 51 = decide ((50 : Int) < 51) :=
  ⟨rfl, rfl, builder_default_expiry_stale_strictly_after
    ({ access_token := some "abc" } : TokenBuilder) 50 51 tokBuilt rfl rfl⟩

/-- C4: when the server's refresh response omits `refresh_token`, the
token returned by `refetch_token` — and the token stored by the
`refresh_token` operation — carries the original refresh token that was
sent in the exchange. -/
theorem refresh_preserves_original_refresh_token (resp : Token) (rt : String)
    (s : AuthCodePkce.ClientState) (_h : resp.refresh_token = none) :
    (AuthCodePkce.refetch_token resp rt).refresh_token = some rt ∧
    (AuthCodePkce.refresh_token resp rt s).token.map Token.refresh_token =
      some (some rt) := by
  exact ⟨rfl, rfl⟩

/-- C4, witness at a concrete refresh exchange. -/
theorem refresh_preserves_original_refresh_token_witness :
    tokResp.refresh_token = none ∧
    (AuthCodePkce.refetch_token tokResp "rt").refresh_token = some "rt" ∧
    (AuthCodePkce.refresh_token tokResp "rt"
      { token_refreshing := true, token := some tokStored }).token.map Token.refresh_token =
      some (some "rt") :=
  ⟨rfl, refresh_preserves_original_refresh_token tokResp "rt"
    { token_refreshing := true, token := some tokStored } rfl⟩

/-- C5, counterexample: the claim asserts the cache round trip
preserves every Token, scope compared as a set.  A scope word
containing a space refutes it: `["a b"]` is serialized as the string
`"a b"` and deserialized by whitespace splitting into `["a", "b"]`,
which is not set-equal to the original scope. -/
theorem cache_roundtrip_scope_cex :
    (TokenBuilder.from_cache (FileRead.json tokWsScope.write_cache)).scope =
      some ["a", "b"] ∧
    eqAsSet ((TokenBuilder.from_cache (FileRead.json tokWsScope.write_cache)).scope.getD [])
      tokWsScope.scope = false := by
  decide

/-- C5, amended: for every Token whose scope words are nonempty and
contain no whitespace, writing the token to the cache and loading it
back yields a builder populated with exactly the original fields — the
scope comes back as precisely the original set of words. -/
theorem cache_roundtrip_ok (tok : Token) (h : okScope tok.scope = true) :
    TokenBuilder.from_cache (FileRead.json tok.write_cache) =
      { access_token := some tok.access_token
        expires_in := some tok.expires_in
        expires_at := some tok.expires_at
        refresh_token := some tok.refresh_token
        scope := some tok.scope } := by
  simp only [TokenBuilder.from_cache, Token.write_cache, parseCacheBlob]
  rw [splitScope_joinScope tok.scope h]

/-- C5, witness for the amended statement at a concrete token. -/
theorem cache_roundtrip_ok_witness :
    okScope tokNice.scope = true ∧
    TokenBuilder.from_cache (FileRead.json tokNice.write_cache) =
      { access_token := some "abc"
        expires_in := some 3600
        expires_at := some (some 100)
        refresh_token := some (some "rt")
        scope := some ["user-read", "playlist"] } :=
  ⟨by decide, cache_roundtrip_ok tokNice (by decide)⟩

/-- C6: `from_cache` is total with no error channel: every failed read
(missing file, unreadable file, malformed JSON) yields the default
builder state, and a successful read yields a builder populated with
the cached token's fields. -/
theorem from_cache_best_effort (f : FileRead) :
    (f.isFailure = true → TokenBuilder.from_cache f = {}) ∧
    (∀ b, f = FileRead.json b →
      TokenBuilder.from_cache f =
        { access_token := some (parseCacheBlob b).access_token
          expires_in := some (parseCacheBlob b).expires_in
          expires_at := some (parseCacheBlob b).expires_at
          refresh_token := some (parseCacheBlob b).refresh_token
          scope := some (parseCacheBlob b).scope }) := by
  cases f <;> simp [TokenBuilder.from_cache, FileRead.isFailure]

/-- C6, witness: a malformed cache file yields the default builder; a
well-formed one yields the populated builder. -/
theorem from_cache_best_effort_witness :
    TokenBuilder.from_cache FileRead.malformed = {} ∧
    TokenBuilder.from_cache (FileRead.json blobDemo) =
      { access_token := some (parseCacheBlob blobDemo).access_token
        expires_in := some (parseCacheBlob blobDemo).expires_in
        expires_at := some (parseCacheBlob blobDemo).expires_at
        refresh_token := some (parseCacheBlob blobDemo).refresh_token
        scope := some (parseCacheBlob blobDemo).scope } :=
  ⟨(from_cache_best_effort FileRead.malformed).1 rfl,
   (from_cache_best_effort (FileRead.json blobDemo)).2 blobDemo rfl⟩

/-- C7: the claim asserts the PKCE authorize URL carries a
`code_challenge` parameter and `code_challenge_method=S256`.  The code
violates this: the two inserts are commented out in
`get_authorize_url` (src/auth_code_pkce.rs 188–189, under a TODO), so
for every client the parameter collection contains neither key. -/
theorem authorize_url_lacks_code_challenge (c : AuthCodePkce.ClientCfg) :
    headers.CODE_CHALLENGE ∉ (AuthCodePkce.get_authorize_url c).map Prod.fst ∧
    headers.CODE_CHALLENGE_METHOD ∉ (AuthCodePkce.get_authorize_url c).map Prod.fst := by
  simp [AuthCodePkce.get_authorize_url, headers.CODE_CHALLENGE,
    headers.CODE_CHALLENGE_METHOD, headers.CLIENT_ID, headers.RESPONSE_TYPE,
    headers.REDIRECT_URI, headers.SCOPE, headers.STATE]

/-- C8: neither the authorize URL parameters nor the token-exchange
form of the PKCE client depend on or contain the client secret:
replacing the secret leaves both outputs unchanged, and no parameter is
keyed `client_secret`. -/
theorem client_secret_never_sent (c : AuthCodePkce.ClientCfg) (sec code : String) :
    AuthCodePkce.get_authorize_url { c with creds := { c.creds with secret := sec } } =
      AuthCodePkce.get_authorize_url c ∧
    AuthCodePkce.request_token_form { c with creds := { c.creds with secret := sec } } code =
      AuthCodePkce.request_token_form c code ∧
    "client_secret" ∉ (AuthCodePkce.get_authorize_url c).map Prod.fst ∧
    "client_secret" ∉ (AuthCodePkce.request_token_form c code).map Prod.fst := by
  refine ⟨rfl, rfl, ?_, ?_⟩ <;>
    simp [AuthCodePkce.get_authorize_url, AuthCodePkce.request_token_form,
      headers.CLIENT_ID, headers.RESPONSE_TYPE, headers.REDIRECT_URI, headers.SCOPE,
      headers.STATE, headers.GRANT_TYPE, headers.CODE]

/-- C9: the claim asserts that N concurrent requests against one
expired-refreshable token trigger exactly one refresh exchange.  The
write lock serializes the requests, so their combined effect is the
sequential fold `run_reauths`; but because `auto_reauth` never checks
expiry, and the refreshed token again carries a refresh token, each of
the two serialized requests performs its own exchange: two exchanges,
not one. -/
theorem sequential_reauths_refresh_each_time :
    tokStored.is_expired 2000 = true ∧
    tokStored.can_reauth = true ∧
    (AuthCodePkce.run_reauths [tokResp, tokResp2]
      { token_refreshing := true, token := some tokStored }).2 = 2 := by
  decide

/-- C10: `refetch_token` overwrites the `refresh_token` field of the
server's response with the refresh token that was sent, even when the
response carried a different (rotated) value, which is discarded. -/
theorem refetch_token_overwrites_refresh_token (resp : Token) (rt rotated : String) :
    (AuthCodePkce.refetch_token { resp with refresh_token := some rotated } rt).refresh_token =
      some rt ∧
    (rotated ≠ rt →
      (AuthCodePkce.refetch_token { resp with refresh_token := some rotated } rt).refresh_token ≠
        some rotated) := by
  refine ⟨rfl, fun hne hcontra => hne ?_⟩
  simpa [AuthCodePkce.refetch_token] using hcontra.symm

/-- C10, witness: a rotated refresh token in the response is replaced
by the one that was sent. -/
theorem refetch_token_overwrites_refresh_token_witness :
    (AuthCodePkce.refetch_token { tokResp with refresh_token := some "rotated" } "rt").refresh_token =
      some "rt" ∧
    ("rotated" : String) ≠ "rt" ∧
    (AuthCodePkce.refetch_token { tokResp with refresh_token := some "rotated" } "rt").refresh_token ≠
      some "rotated" :=
  ⟨(refetch_token_overwrites_refresh_token tokResp "rt" "rotated").1, by decide,
   (refetch_token_overwrites_refresh_token tokResp "rt" "rotated").2 (by decide)⟩

end Rspotify
